import Mathlib

/-!
Verification of the decision engine of `src/main.py` (IPMI fan control).

The Python source is shallowly embedded: every function below mirrors one
function of `src/main.py` (the module-level configuration constants and
`datetime.now()` are passed as explicit parameters, and library calls such
as `str.strip`, `str.splitlines`, `str.split`, `int(...)` and
`re.search(r"(-?\d+(?:\.\d+)?)", ...)` are embedded as the `py_*` /
`re_search_num` helpers).  Floating-point temperature values are modelled
as rationals; the decimal literals appearing in sensor text are exact in
this model, as they are in the claims under scrutiny.  Fallible Python
code (raising / exception paths) is modelled with `Option` / `Except`.
-/

namespace IPMIFan

/-- ASCII whitespace as stripped by Python `str.strip()`. -/
def pyIsSpace (c : Char) : Bool :=
  c = ' ' || c = '\t' || c = '\n' || c = '\r' || c = '\x0b' || c = '\x0c'

/-- Python `str.strip()` on a character list. -/
def py_strip (cs : List Char) : List Char :=
  ((cs.dropWhile pyIsSpace).reverse.dropWhile pyIsSpace).reverse

/-- Line-break characters recognised by Python `str.splitlines()`. -/
def pyIsLineBreak (c : Char) : Bool :=
  c = '\n' || c = '\r' || c = '\x0b' || c = '\x0c' ||
  c = '\x1c' || c = '\x1d' || c = '\x1e' || c = '\x85' ||
  c = '\u2028' || c = '\u2029'

/-- Python `str.splitlines()` (without keepends); `acc` holds the current
line reversed; `"\r\n"` counts as a single break. -/
def py_splitlines : List Char → List Char → List (List Char)
  | [], acc => if acc.isEmpty then [] else [acc.reverse]
  | '\r' :: '\n' :: rest, acc => acc.reverse :: py_splitlines rest []
  | c :: rest, acc =>
    if pyIsLineBreak c then acc.reverse :: py_splitlines rest []
    else py_splitlines rest (c :: acc)

/-- Python `str.split(sep)` for a one-character separator (keeps empty
parts, as Python does). -/
def py_split (sep : Char) : List Char → List (List Char)
  | [] => [[]]
  | c :: rest =>
    let r := py_split sep rest
    if c = sep then [] :: r
    else
      match r with
      | [] => [[c]]
      | f :: t => (c :: f) :: t

/-- Does `cs` start with `needle`? -/
def startsWith : List Char → List Char → Bool
  | _, [] => true
  | [], _ :: _ => false
  | c :: cs, d :: ds => c = d && startsWith cs ds

/-- Python `needle in hay` substring test. -/
def containsSub (needle : List Char) : List Char → Bool
  | [] => startsWith [] needle
  | c :: rest => startsWith (c :: rest) needle || containsSub needle rest

/-- Numeric value of an ASCII digit character. -/
def digitVal (c : Char) : ℕ := c.toNat - '0'.toNat

/-- Value of a string of decimal digits. -/
def natOfDigits (ds : List Char) : ℕ :=
  ds.foldl (fun a c => 10 * a + digitVal c) 0

/-- Match the regex `-?\d+(?:\.\d+)?` anchored at the head of `cs`,
returning the numeric value of the match, with Python backtracking
semantics: the optional minus is kept only if digits follow it, and the
fractional part is kept only if at least one digit follows the dot.
`float(...)` of the matched text cannot fail, so the value is returned
directly (the `except ValueError` branch of the source is dead). -/
def matchNumAt (cs : List Char) : Option ℚ :=
  let p := match cs with
    | '-' :: rest => (true, rest)
    | _ => (false, cs)
  let ip := p.2.takeWhile Char.isDigit
  if ip.isEmpty then none
  else
    let fp := match p.2.dropWhile Char.isDigit with
      | '.' :: r2 => r2.takeWhile Char.isDigit
      | _ => []
    let mag : ℚ := mkRat (natOfDigits ip * 10 ^ fp.length + natOfDigits fp) (10 ^ fp.length)
    some (if p.1 then -mag else mag)

/-- `re.search(r"(-?\d+(?:\.\d+)?)", ...)`: the leftmost match wins. -/
def re_search_num : List Char → Option ℚ
  | [] => none
  | c :: rest =>
    match matchNumAt (c :: rest) with
    | some v => some v
    | none => re_search_num rest

/-- One iteration of the `parse_sensor_output` loop body
(src/main.py:183-197): the reading contributed by a single line, if any.
The line is kept only if `"temp"` occurs in its lowercasing, it has at
least two pipe-separated fields, the second field contains a number, and
that number lies strictly between -50 and 200. -/
def parse_line (line : List Char) : Option ℚ :=
  if !containsSub "temp".data (line.map Char.toLower) then none
  else
    match py_split '|' line with
    | _ :: field :: _ =>
      match re_search_num (py_strip field) with
      | some val => if -50 < val ∧ val < 200 then some val else none
      | none => none
    | _ => none

/-- `parse_sensor_output` (src/main.py:177-198). -/
def parse_sensor_output (output : String) : List ℚ :=
  (py_splitlines (py_strip output.data) []).filterMap parse_line

/-- `get_temps` (src/main.py:201-206): a non-zero exit status of the
sensor read yields `[]`, otherwise the stdout text is parsed. -/
def get_temps (status : ℤ) (stdout : String) : List ℚ :=
  if status ≠ 0 then [] else parse_sensor_output stdout

/-- After the leading digit of a Python integer literal body: digits with
single underscores allowed between digits only. -/
def digitsUS : List Char → Bool
  | [] => true
  | '_' :: c :: rest => c.isDigit && digitsUS rest
  | '_' :: [] => false
  | c :: rest => c.isDigit && digitsUS rest

/-- Is `cs` a valid unsigned body for Python `int(...)`: at least one
digit, single underscores only between digits. -/
def pyIntValid : List Char → Bool
  | c :: rest => c.isDigit && digitsUS rest
  | [] => false

/-- Python `int(str)` (ASCII digits): strip whitespace, optional sign,
digit body; `none` models the `ValueError`. -/
def py_int (cs0 : List Char) : Option ℤ :=
  let cs := py_strip cs0
  let p : ℤ × List Char := match cs with
    | '+' :: rest => (1, rest)
    | '-' :: rest => (-1, rest)
    | _ => (1, cs)
  if pyIntValid p.2 then some (p.1 * (natOfDigits (p.2.filter fun c => c ≠ '_') : ℤ))
  else none

/-- `parse_hhmm` (src/main.py:219-227): split on `":"`, unpack exactly two
components, convert each with `int(...)`; any failure raises `ValueError`
(modelled as `Except.error` with the source's message). -/
def parse_hhmm (s : String) : Except String (ℤ × ℤ) :=
  match py_split ':' s.data with
  | [h, m] =>
    match py_int h, py_int m with
    | some hv, some mv => .ok (hv, mv)
    | _, _ => .error ("时间格式错误: " ++ s ++ "，应为 HH:MM")
  | _ => .error ("时间格式错误: " ++ s ++ "，应为 HH:MM")

/-- The window-membership arithmetic of `is_in_time_window`
(src/main.py:243-252), on minutes-of-day values. -/
def in_window_minutes (start_minutes end_minutes now_minutes : ℤ) : Bool :=
  if start_minutes = end_minutes then true
  else if start_minutes < end_minutes then
    decide (start_minutes ≤ now_minutes ∧ now_minutes < end_minutes)
  else
    decide (now_minutes ≥ start_minutes ∨ now_minutes < end_minutes)

/-- `is_in_time_window` (src/main.py:230-252): parse both boundary strings
(propagating their `ValueError`), convert everything to minutes-of-day and
test membership.  `now` is passed as its hour and minute fields. -/
def is_in_time_window (now_hour now_minute : ℤ) (start_str end_str : String) :
    Except String Bool :=
  match parse_hhmm start_str, parse_hhmm end_str with
  | .ok sp, .ok ep =>
    .ok (in_window_minutes (sp.1 * 60 + sp.2) (ep.1 * 60 + ep.2)
          (now_hour * 60 + now_minute))
  | .error e, _ => .error e
  | _, .error e => .error e

/-- The rule table `TEMP_SPEED_RULES` of src/main.py:38-46. -/
def TEMP_SPEED_RULES : List (ℚ × ℤ) :=
  [(70, 40), (65, 35), (60, 30), (50, 24), (40, 20), (30, 15), (-273, 5)]

def MIN_PERCENT : ℤ := 0

def MAX_PERCENT : ℤ := 100

def NIGHT_LIMIT_ENABLED : Bool := true

def NIGHT_START : String := "23:00"

def NIGHT_END : String := "07:30"

def NIGHT_MAX_PERCENT : ℤ := 25

/-- The scan loop of `choose_speed_by_temp` (src/main.py:213-215): first
rule with `temp >= lower_bound`, in the given order. -/
def find_rule : List (ℚ × ℤ) → ℚ → Option ℤ
  | [], _ => none
  | (lower_bound, pct) :: rest, temp =>
    if lower_bound ≤ temp then some pct else find_rule rest temp

/-- `choose_speed_by_temp` (src/main.py:209-216), with the global rule
table passed as a parameter.  The fallback reads the last rule
(`TEMP_SPEED_RULES[-1][1]`); on an empty rule list that subscript would
raise `IndexError`, modelled by `none`. -/
def choose_speed_by_temp (rules : List (ℚ × ℤ)) (temp : ℚ) : Option ℤ :=
  match find_rule rules temp with
  | some pct => some pct
  | none => rules.getLast?.map Prod.snd

/-- Spec-level `selectBaseSpeed` (§4.2 of the specification, written from
the spec's words for the refinement claim C1): the percentage of the first
rule, in the given order, whose lower bound is ≤ T; if no rule matches,
the percentage of the last rule.  The default of `getLastD` is never
reached for a non-empty rule list. -/
def selectBaseSpeed (rules : List (ℚ × ℤ)) (T : ℚ) : ℤ :=
  match rules.find? (fun r => decide (r.1 ≤ T)) with
  | some r => r.2
  | none => (rules.getLastD (0, 0)).2

/-- `apply_night_limit` (src/main.py:255-275), with the configuration
globals (`NIGHT_LIMIT_ENABLED`, `NIGHT_MAX_PERCENT`, the parsed
`NIGHT_START`/`NIGHT_END` boundaries) and `datetime.now()` passed as
parameters in minutes-of-day form; the string parsing of the boundaries is
covered by `parse_hhmm` / `is_in_time_window`. -/
def apply_night_limit (enabled : Bool) (cap : ℤ)
    (start_minutes end_minutes now_minutes : ℤ) (speed : ℤ) : ℤ :=
  if !enabled then speed
  else if in_window_minutes start_minutes end_minutes now_minutes then
    if speed > cap then cap else speed
  else speed

/-- The clamping at the head of `set_speed` (src/main.py:159-163): two
sequential corrections against `MIN_PERCENT` and `MAX_PERCENT`. -/
def clamp (percent : ℤ) : ℤ :=
  let p1 := if percent < MIN_PERCENT then MIN_PERCENT else percent
  if p1 > MAX_PERCENT then MAX_PERCENT else p1

/-- `set_speed` (src/main.py:155-174): clamp, then send the raw command
whose payload byte is the clamped percentage.  The returned value is the
percentage actually placed on the wire; the gateway's exit status is only
logged and affects nothing else. -/
def set_speed (percent : ℤ) : ℤ :=
  clamp percent

/-- Result of one `auto_config` cycle: the new `_last_set_speed`, whether
a dispatch (a `set_speed` call) was attempted, and the wire percentage
sent if so. -/
structure CycleOut where
  newLast : Option ℤ
  dispatched : Bool
  wire : Option ℤ
deriving DecidableEq, Repr

/-- The dedup-and-dispatch tail of `auto_config` (src/main.py:292-297):
skip when `final_speed == _last_set_speed` (a `None` state never equals an
int), otherwise call `set_speed` and record the raw `final_speed` —
unconditionally, whatever the gateway reported. -/
def decide_and_dispatch (final_speed : ℤ) (last : Option ℤ) : CycleOut :=
  if some final_speed = last then ⟨last, false, none⟩
  else ⟨some final_speed, true, some (set_speed final_speed)⟩

/-- Minutes-of-day of `NIGHT_START` = "23:00"; `parse_hhmm` agreement is
proved in `parse_night_start_ok`. -/
def night_start_minutes : ℤ := 23 * 60 + 0

/-- Minutes-of-day of `NIGHT_END` = "07:30". -/
def night_end_minutes : ℤ := 7 * 60 + 30

/-- The speed computed by a cycle of `auto_config` (src/main.py:286-290):
`none` when there are no readings (line 280-282) or — unreachably for the
concrete rule table — when the rule scan has nothing to return. -/
def cycle_final_speed (temps : List ℚ) (now_minutes : ℤ) : Option ℤ :=
  match temps with
  | [] => none
  | t :: ts =>
    (choose_speed_by_temp TEMP_SPEED_RULES (ts.foldl max t)).map fun base_speed =>
      apply_night_limit NIGHT_LIMIT_ENABLED NIGHT_MAX_PERCENT
        night_start_minutes night_end_minutes now_minutes base_speed

/-- `auto_config` (src/main.py:278-297).  `temps` is the result of
`get_temps`, `now_minutes` the wall clock, `gwOk` the gateway status of
the set-speed step (consulted only for logging: the cycle's outcome does
not depend on it), `last` the prior `_last_set_speed`. -/
def auto_config (temps : List ℚ) (now_minutes : ℤ) (gwOk : Bool)
    (last : Option ℤ) : CycleOut :=
  match cycle_final_speed temps now_minutes with
  | none => ⟨last, false, none⟩
  | some final_speed => decide_and_dispatch final_speed last

/-- The rule table used by the spec's worked example for C1. -/
def rulesFromSpec : List (ℚ × ℤ) :=
  [(70, 40), (60, 30), (40, 20), (30, 15), (-273, 5)]

/-- Rendering of a two-digit `"HH:MM"` string, the well-formed input shape
of claim C9. -/
def hhmmString (h m : ℕ) : String :=
  ⟨[Nat.digitChar (h / 10), Nat.digitChar (h % 10), ':',
    Nat.digitChar (m / 10), Nat.digitChar (m % 10)]⟩

/-- The rule-scan loop is `List.find?` on the bound test, projected to the
percentage. -/
theorem find_rule_eq_find? (rules : List (ℚ × ℤ)) (T : ℚ) :
    find_rule rules T = (rules.find? fun r => decide (r.1 ≤ T)).map Prod.snd := by
  induction rules with
  | nil => rfl
  | cons r rest ih =>
    obtain ⟨lb, pct⟩ := r
    by_cases h : lb ≤ T
    · simp [find_rule, List.find?, h]
    · simp [find_rule, List.find?, h, ih]

/-- A single sensor line only ever contributes an in-range reading. -/
theorem parse_line_range (l : List Char) (v : ℚ) (h : parse_line l = some v) :
    -50 < v ∧ v < 200 := by
  unfold parse_line at h
  split at h
  · exact absurd h (by simp)
  · split at h
    · split at h
      · split at h
        next hcond =>
          cases h
          exact hcond
        next => exact absurd h (by simp)
      · exact absurd h (by simp)
    · exact absurd h (by simp)

/-- The night-configuration strings parse to the expected minutes. -/
theorem parse_night_start_ok :
    parse_hhmm NIGHT_START = .ok (23, 0) ∧ parse_hhmm NIGHT_END = .ok (7, 30) :=
  ⟨rfl, rfl⟩

/-- Splitting a separator-free list is the identity. -/
theorem py_split_no_sep (sep : Char) (l : List Char) (h : ∀ c ∈ l, c ≠ sep) :
    py_split sep l = [l] := by
  induction l with
  | nil => rfl
  | cons c rest ih =>
    have hc : c ≠ sep := h c (by simp)
    have hr := ih fun d hd => h d (by simp [hd])
    simp [py_split, hc, hr]

/-- Splitting around a single separator occurrence yields the two sides. -/
theorem py_split_sep_pair (sep : Char) (l1 l2 : List Char)
    (h1 : ∀ c ∈ l1, c ≠ sep) (h2 : ∀ c ∈ l2, c ≠ sep) :
    py_split sep (l1 ++ sep :: l2) = [l1, l2] := by
  induction l1 with
  | nil => simp [py_split, py_split_no_sep sep l2 h2]
  | cons c rest ih =>
    have hc : c ≠ sep := h1 c (by simp)
    have hr := ih fun d hd => h1 d (by simp [hd])
    simp [py_split, hc, hr]

/-- Characters produced by `Nat.digitChar` below 10 are plain ASCII
digits, distinct from the separators and signs the parsers inspect. -/
theorem digitChar_spec (d : ℕ) (hd : d < 10) :
    (Nat.digitChar d).isDigit = true ∧ Nat.digitChar d ≠ ':' ∧
    Nat.digitChar d ≠ '+' ∧ Nat.digitChar d ≠ '-' ∧ Nat.digitChar d ≠ '_' ∧
    pyIsSpace (Nat.digitChar d) = false ∧ digitVal (Nat.digitChar d) = d := by
  interval_cases d <;> decide

/-- Python `int(...)` on a two-digit string returns its value. -/
theorem py_int_two_digits (a b : ℕ) (ha : a < 10) (hb : b < 10) :
    py_int [Nat.digitChar a, Nat.digitChar b] = some ((10 * a + b : ℕ) : ℤ) := by
  interval_cases a <;> interval_cases b <;> decide

/-- `parse_hhmm` accepts every two-digit rendering. -/
theorem parse_hhmm_wellformed (h m : ℕ) (hh : h < 100) (hm : m < 100) :
    parse_hhmm (hhmmString h m) = .ok ((h : ℤ), (m : ℤ)) := by
  have h1 : h / 10 < 10 := by omega
  have h2 : h % 10 < 10 := by omega
  have h3 : m / 10 < 10 := by omega
  have h4 : m % 10 < 10 := by omega
  have hsplit : py_split ':' (hhmmString h m).data =
      [[Nat.digitChar (h / 10), Nat.digitChar (h % 10)],
       [Nat.digitChar (m / 10), Nat.digitChar (m % 10)]] := by
    have := py_split_sep_pair ':'
      [Nat.digitChar (h / 10), Nat.digitChar (h % 10)]
      [Nat.digitChar (m / 10), Nat.digitChar (m % 10)]
      (by
        intro c hc
        simp only [List.mem_cons, List.not_mem_nil, or_false] at hc
        rcases hc with rfl | rfl
        · exact (digitChar_spec _ h1).2.1
        · exact (digitChar_spec _ h2).2.1)
      (by
        intro c hc
        simp only [List.mem_cons, List.not_mem_nil, or_false] at hc
        rcases hc with rfl | rfl
        · exact (digitChar_spec _ h3).2.1
        · exact (digitChar_spec _ h4).2.1)
    simpa [hhmmString] using this
  unfold parse_hhmm
  rw [hsplit]
  simp only [py_int_two_digits _ _ h1 h2, py_int_two_digits _ _ h3 h4]
  simp only [Except.ok.injEq, Prod.mk.injEq]
  omega

/-- C1: for every finite temperature T and non-empty ordered rule list,
`choose_speed_by_temp` returns the percentage of the first rule in the
given order whose lower bound is ≤ T, and the percentage of the last rule
when none matches (the spec-level `selectBaseSpeed`); on the spec's
example rules, T = 65 yields 30, T = 25 yields 5 and T = 70 yields 40. -/
theorem choose_speed_matches_selectBaseSpeed (rules : List (ℚ × ℤ)) (T : ℚ)
    (h : rules ≠ []) :
    choose_speed_by_temp rules T = some (selectBaseSpeed rules T) ∧
    choose_speed_by_temp rulesFromSpec 65 = some 30 ∧
    choose_speed_by_temp rulesFromSpec 25 = some 5 ∧
    choose_speed_by_temp rulesFromSpec 70 = some 40 := by
  refine ⟨?_, by decide, by decide, by decide⟩
  unfold choose_speed_by_temp selectBaseSpeed
  rw [find_rule_eq_find?]
  cases hf : rules.find? fun r => decide (r.1 ≤ T) with
  | some r => simp
  | none =>
    obtain ⟨x, hx⟩ := Option.isSome_iff_exists.mp (List.getLast?_isSome.mpr h)
    simp [hx, List.getLastD_eq_getLast?]

/-- C1 witness: the theorem applied at the spec's example rules. -/
theorem choose_speed_matches_selectBaseSpeed_witness :
    choose_speed_by_temp rulesFromSpec 65 = some (selectBaseSpeed rulesFromSpec 65) :=
  (choose_speed_matches_selectBaseSpeed rulesFromSpec 65 (by decide)).1

/-- C2: window membership is always true for a degenerate window, is the
half-open test `start ≤ now < end` for a non-wrapping window, and is the
wrap-around test `now ≥ start ∨ now < end` otherwise; on the configured
strings, 23:00 and 07:29 are inside (23:00, 07:30), 07:30 and 12:00 are
outside, and the degenerate window (10:00, 10:00) contains every time. -/
theorem window_membership_spec (startM endM nowM : ℤ) :
    (startM = endM → in_window_minutes startM endM nowM = true) ∧
    (startM < endM →
      (in_window_minutes startM endM nowM = true ↔ startM ≤ nowM ∧ nowM < endM)) ∧
    (startM > endM →
      (in_window_minutes startM endM nowM = true ↔ nowM ≥ startM ∨ nowM < endM)) ∧
    is_in_time_window 23 0 "23:00" "07:30" = .ok true ∧
    is_in_time_window 7 29 "23:00" "07:30" = .ok true ∧
    is_in_time_window 7 30 "23:00" "07:30" = .ok false ∧
    is_in_time_window 12 0 "23:00" "07:30" = .ok false ∧
    (∀ h m : ℤ, is_in_time_window h m "10:00" "10:00" = .ok true) := by
  refine ⟨?_, ?_, ?_, by rfl, by rfl, by rfl, by rfl, ?_⟩
  · intro h
    simp [in_window_minutes, h]
  · intro h
    unfold in_window_minutes
    rw [if_neg (by omega), if_pos h]
    simp
  · intro h
    unfold in_window_minutes
    rw [if_neg (by omega), if_neg (by omega)]
    simp
  · intro h m
    have hse : parse_hhmm "10:00" = .ok (10, 0) := by rfl
    simp [is_in_time_window, hse, in_window_minutes]

/-- C2 witness: the three regimes at concrete minute values. -/
theorem window_membership_spec_witness :
    in_window_minutes 600 600 123 = true ∧
    (in_window_minutes 100 200 150 = true ↔ (100 : ℤ) ≤ 150 ∧ (150 : ℤ) < 200) ∧
    (in_window_minutes 1380 450 1400 = true ↔ (1400 : ℤ) ≥ 1380 ∨ (1400 : ℤ) < 450) :=
  ⟨(window_membership_spec 600 600 123).1 rfl,
   (window_membership_spec 100 200 150).2.1 (by norm_num),
   (window_membership_spec 1380 450 1400).2.2.1 (by norm_num)⟩

/-- C3: the night cap never raises a speed: the result is always ≤ the base
speed B; it equals B when the feature is disabled or the time is outside
the window; it equals the cap C when enabled, inside the window and B > C;
and it equals B otherwise. -/
theorem night_cap_never_raises (enabled : Bool) (cap startM endM nowM B : ℤ) :
    apply_night_limit enabled cap startM endM nowM B ≤ B ∧
    (enabled = false → apply_night_limit enabled cap startM endM nowM B = B) ∧
    (in_window_minutes startM endM nowM = false →
      apply_night_limit enabled cap startM endM nowM B = B) ∧
    (enabled = true → in_window_minutes startM endM nowM = true → B > cap →
      apply_night_limit enabled cap startM endM nowM B = cap) ∧
    (enabled = true → in_window_minutes startM endM nowM = true → ¬B > cap →
      apply_night_limit enabled cap startM endM nowM B = B) := by
  unfold apply_night_limit
  cases enabled <;>
    cases hw : in_window_minutes startM endM nowM <;>
      by_cases hc : B > cap <;>
        simp_all <;> omega

/-- C3 witness: capping applies at 23:30 with base 40 and cap 25. -/
theorem night_cap_never_raises_witness :
    apply_night_limit true 25 1380 450 1410 40 ≤ 40 ∧
    apply_night_limit true 25 1380 450 1410 40 = 25 :=
  ⟨(night_cap_never_raises true 25 1380 450 1410 40).1,
   (night_cap_never_raises true 25 1380 450 1410 40).2.2.2.1 rfl (by decide)
     (by norm_num)⟩

/-- C4: every reading produced by `parse_sensor_output` lies strictly
between -50 and 200 (out-of-range values are silently discarded), and
malformed or noise-only text yields the empty list; the function is total,
so it never raises. -/
theorem parse_range_and_noise (s : String) (v : ℚ)
    (h : v ∈ parse_sensor_output s) :
    (-50 < v ∧ v < 200) ∧
    parse_sensor_output "" = [] ∧
    parse_sensor_output "complete garbage !! no sensors here" = [] ∧
    parse_sensor_output "CPU Temp | na | ns" = [] ∧
    parse_sensor_output "Weird Temp | 250.0 | degrees C\nCold Temp | -99 | x" = [] := by
  refine ⟨?_, by rfl, by rfl, by rfl, by rfl⟩
  unfold parse_sensor_output at h
  obtain ⟨l, _, hl⟩ := List.mem_filterMap.mp h
  exact parse_line_range l v hl

/-- C4 witness: 45.5 (= 91/2) is parsed from a well-formed line and lies in
range. -/
theorem parse_range_and_noise_witness :
    -50 < mkRat 91 2 ∧ mkRat 91 2 < 200 :=
  (parse_range_and_noise "CPU Temp | 45.5 | degrees C" (mkRat 91 2) (by decide)).1

/-- C5 counterexample: with candidate 150 and last-applied 100 the claimed
skip condition holds (the last-applied value equals the clamped
candidate, `clamp 150 = 100`), yet the code dispatches: the dedup
comparison of `auto_config` uses the raw candidate, not the clamped one. -/
theorem dedup_on_clamped_counterexample :
    some (clamp 150) = some (100 : ℤ) ∧
    (decide_and_dispatch 150 (some 100)).dispatched = true := by decide

/-- C5 (amended): the dispatch is skipped exactly when `_last_set_speed`
equals the raw (unclamped) candidate — for candidates already in [0, 100]
this coincides with comparing the clamped value, since clamping is then
the identity; when a dispatch does happen, the value placed on the wire is
the candidate clamped into [0, 100] (below 0 corrected to 0, above 100 to
100) before the hardware write. -/
theorem dedup_raw_then_clamp (c : ℤ) (last : Option ℤ) :
    ((decide_and_dispatch c last).dispatched = false ↔ last = some c) ∧
    ((decide_and_dispatch c last).dispatched = true →
      (decide_and_dispatch c last).wire = some (clamp c)) ∧
    (c < 0 → clamp c = 0) ∧
    (c > 100 → clamp c = 100) ∧
    (0 ≤ c → c ≤ 100 → clamp c = c) := by
  have hclamp1 : c < 0 → clamp c = 0 := by
    intro hc
    simp only [clamp, MIN_PERCENT, MAX_PERCENT]
    split_ifs <;> omega
  have hclamp2 : c > 100 → clamp c = 100 := by
    intro hc
    simp only [clamp, MIN_PERCENT, MAX_PERCENT]
    split_ifs <;> omega
  have hclamp3 : 0 ≤ c → c ≤ 100 → clamp c = c := by
    intro hc1 hc2
    simp only [clamp, MIN_PERCENT, MAX_PERCENT]
    split_ifs <;> omega
  refine ⟨?_, ?_, hclamp1, hclamp2, hclamp3⟩
  · unfold decide_and_dispatch
    by_cases h : some c = last
    · simp [h]
    · simp [h]
      exact fun hc => h hc.symm
  · unfold decide_and_dispatch set_speed
    by_cases h : some c = last <;> simp [h]

/-- C5 witness: skip at equal raw values; clamping corrects -5 to 0, 150
to 100, and leaves 40 unchanged. -/
theorem dedup_raw_then_clamp_witness :
    (decide_and_dispatch 150 (some 150)).dispatched = false ∧
    clamp (-5) = 0 ∧ clamp 150 = 100 ∧ clamp 40 = 40 :=
  ⟨(dedup_raw_then_clamp 150 (some 150)).1.mpr rfl,
   (dedup_raw_then_clamp (-5) none).2.2.1 (by norm_num),
   (dedup_raw_then_clamp 150 none).2.2.2.1 (by norm_num),
   (dedup_raw_then_clamp 40 none).2.2.2.2 (by norm_num) (by norm_num)⟩

/-- C6: when a cycle dispatches, `_last_set_speed` becomes the attempted
speed whatever the gateway reported (the cycle's outcome is independent of
the gateway status), and two consecutive cycles computing the same final
speed attempt at most one hardware write between them. -/
theorem dispatch_idempotence (temps₁ temps₂ : List ℚ) (now₁ now₂ : ℤ)
    (ok₁ ok₂ : Bool) (last : Option ℤ) (f : ℤ)
    (h₁ : cycle_final_speed temps₁ now₁ = some f)
    (h₂ : cycle_final_speed temps₂ now₂ = some f) :
    ((auto_config temps₁ now₁ ok₁ last).dispatched = true →
      (auto_config temps₁ now₁ ok₁ last).newLast = some f) ∧
    auto_config temps₁ now₁ ok₁ last = auto_config temps₁ now₁ ok₂ last ∧
    (if (auto_config temps₁ now₁ ok₁ last).dispatched then 1 else 0) +
      (if (auto_config temps₂ now₂ ok₂
            (auto_config temps₁ now₁ ok₁ last).newLast).dispatched then 1 else 0) ≤ 1 := by
  unfold auto_config
  rw [h₁, h₂]
  unfold decide_and_dispatch
  by_cases h : some f = last <;> simp [h]

/-- C6 witness: a 71-degree reading at 14:00, first gateway call failing,
second cycle identical: exactly one dispatch across the two cycles. -/
theorem dispatch_idempotence_witness :
    ((auto_config [(71 : ℚ)] 840 false none).dispatched = true →
      (auto_config [(71 : ℚ)] 840 false none).newLast = some 40) ∧
    auto_config [(71 : ℚ)] 840 false none = auto_config [(71 : ℚ)] 840 true none ∧
    (if (auto_config [(71 : ℚ)] 840 false none).dispatched then 1 else 0) +
      (if (auto_config [(71 : ℚ)] 840 true
            (auto_config [(71 : ℚ)] 840 false none).newLast).dispatched then 1 else 0) ≤ 1 :=
  dispatch_idempotence [71] [71] 840 840 false true none 40 (by decide) (by decide)

/-- C7: with no valid readings — an empty parse result or a failed sensor
read — the cycle attempts no dispatch, issues nothing to the gateway, and
leaves `_last_set_speed` untouched. -/
theorem no_readings_holds_state (now : ℤ) (ok : Bool) (last : Option ℤ)
    (status : ℤ) (out : String) (h : status ≠ 0) :
    auto_config [] now ok last = ⟨last, false, none⟩ ∧
    auto_config (get_temps status out) now ok last = ⟨last, false, none⟩ := by
  have hg : get_temps status out = [] := by simp [get_temps, h]
  rw [hg]
  exact ⟨rfl, rfl⟩

/-- C7 witness: a failed read (status 1) at 14:00 with last speed 30. -/
theorem no_readings_holds_state_witness :
    auto_config [] 840 true (some 30) = ⟨some 30, false, none⟩ ∧
    auto_config (get_temps 1 "ignored") 840 true (some 30) = ⟨some 30, false, none⟩ :=
  no_readings_holds_state 840 true (some 30) 1 "ignored" (by norm_num)

/-- C8 counterexample: in the line "Fan1 | 45.0 | Temp-ish" the
sensor-name field (the first pipe-delimited field) does not contain
"temp", yet the line contributes the reading 45: the code matches "temp"
against the whole line, not the first field. -/
theorem temp_filter_counterexample :
    containsSub "temp".data
      (((py_split '|' "Fan1 | 45.0 | Temp-ish".data).headD []).map Char.toLower) = false ∧
    parse_sensor_output "Fan1 | 45.0 | Temp-ish" = [45] := by decide

/-- C8 (amended): the parser considers a line only if "temp" appears
case-insensitively anywhere in the whole line; a line without it anywhere
is skipped and contributes no reading, and text all of whose lines lack it
parses to the empty list. -/
theorem temp_filter_whole_line (l : List Char) (s : String)
    (h : containsSub "temp".data (l.map Char.toLower) = false)
    (hs : ∀ line ∈ py_splitlines (py_strip s.data) [],
      containsSub "temp".data (line.map Char.toLower) = false) :
    parse_line l = none ∧ parse_sensor_output s = [] := by
  constructor
  · unfold parse_line
    simp [h]
  · unfold parse_sensor_output
    rw [List.filterMap_eq_nil_iff]
    intro line hline
    unfold parse_line
    simp [hs line hline]

/-- C8 witness: a fan line without "temp" anywhere contributes nothing. -/
theorem temp_filter_whole_line_witness :
    parse_line "FAN1 | 3000 | RPM".data = none ∧
    parse_sensor_output "FAN1 | 3000 | RPM\nPSU1 | 12.1 | Volts" = [] :=
  temp_filter_whole_line "FAN1 | 3000 | RPM".data
    "FAN1 | 3000 | RPM\nPSU1 | 12.1 | Volts" (by decide) (by decide)

/-- C9: `parse_hhmm` raises a `ValueError` for every string that does not
split on ":" into exactly two components, and for every string one of
whose two components `int(...)` rejects; every well-formed two-digit
"HH:MM" string is accepted and returns the (hour, minute) pair. -/
theorem parse_hhmm_spec :
    (∀ s : String, (py_split ':' s.data).length ≠ 2 →
      ∃ e, parse_hhmm s = .error e) ∧
    (∀ (s : String) (h m : List Char), py_split ':' s.data = [h, m] →
      py_int h = none ∨ py_int m = none → ∃ e, parse_hhmm s = .error e) ∧
    (∀ h m : ℕ, h < 100 → m < 100 →
      parse_hhmm (hhmmString h m) = .ok ((h : ℤ), (m : ℤ))) := by
  refine ⟨?_, ?_, parse_hhmm_wellformed⟩
  · intro s hlen
    unfold parse_hhmm
    rcases hsp : py_split ':' s.data with _ | ⟨a, _ | ⟨b, _ | ⟨c, t⟩⟩⟩
    · exact ⟨_, rfl⟩
    · exact ⟨_, rfl⟩
    · exact absurd (by rw [hsp]; rfl) hlen
    · exact ⟨_, rfl⟩
  · intro s h m hsp hnone
    have hred : parse_hhmm s =
        (match py_int h, py_int m with
          | some hv, some mv => Except.ok (hv, mv)
          | _, _ => Except.error ("时间格式错误: " ++ s ++ "，应为 HH:MM")) := by
      unfold parse_hhmm
      rw [hsp]
    rw [hred]
    rcases hnone with h1 | h1
    · rw [h1]
      cases py_int m <;> exact ⟨_, rfl⟩
    · rw [h1]
      cases py_int h <;> exact ⟨_, rfl⟩

/-- C9 witness: "23:00" (as a rendered two-digit string) parses to
(23, 0); "1:2:3" and "aa:bb" raise. -/
theorem parse_hhmm_spec_witness :
    parse_hhmm (hhmmString 23 0) = .ok (23, 0) ∧
    (∃ e, parse_hhmm "1:2:3" = .error e) ∧
    (∃ e, parse_hhmm "aa:bb" = .error e) :=
  ⟨parse_hhmm_spec.2.2 23 0 (by norm_num) (by norm_num),
   parse_hhmm_spec.1 "1:2:3" (by decide),
   parse_hhmm_spec.2.1 "aa:bb" "aa".data "bb".data (by decide) (Or.inl (by decide))⟩

/-- C10: `parse_hhmm` performs no range validation: "25:99" parses to
(25, 99) and "-1:30" to (-1, 30) without error, and such out-of-range
boundaries flow on into the window-membership computation. -/
theorem parse_hhmm_no_range_validation :
    parse_hhmm "25:99" = .ok (25, 99) ∧
    parse_hhmm "-1:30" = .ok (-1, 30) ∧
    is_in_time_window 12 0 "25:99" "26:00" = .ok true ∧
    is_in_time_window 12 0 "-1:30" "07:30" = .ok false :=
  ⟨by rfl, by rfl, by rfl, by rfl⟩

end IPMIFan
